import Mathlib

/-!
Verification of the SeeSea repository (`seesea/model/multihead/train.py` and
`seesea/model/test_beaufort.py`): a shallow embedding of the two scripts'
pure computations, configuration decisions, dataset-pipeline construction and
event traces, with theorems checking the specification's claims against them.

Conventions of the embedding:
* Python floats are modelled as rationals (`ℚ`), images and pixel tensors as
  abstract values (`Nat` ids).
* A Python `dict` built by successive assignments is modelled as the
  association list of the assignments in order; reading a key yields the value
  of the last assignment to it (`dictGet`).
* Library calls with fixed documented meaning are embedded by that meaning:
  `evaluate.load("mae")`'s `compute` is the mean absolute error
  `(Σ |pred - ref|) / n`, and `os.path.join` is `joinPath` below.
* Effectful steps of the scripts (training, saving, writing files) are
  modelled as event traces, in the order the statements execute.
-/

namespace SeeSea

/-! ## Metric computation — `train.py`, `compute_metrics` (lines 41-51) -/

/-- Sum of absolute differences of two equally long lists (the numerator of
the mean absolute error computed by the `evaluate` mae metric). -/
def absDiffSum (ps ls : List ℚ) : ℚ :=
  (List.zipWith (fun a b => |a - b|) ps ls).sum

/-- `metric.compute(predictions=ps, references=ls)["mae"]`: the mean absolute
error, mean of `|p - l|` over the `ps.length` prediction/reference pairs. -/
def mae (ps ls : List ℚ) : ℚ :=
  absDiffSum ps ls / (ps.length : ℚ)

/-- Column `i` of a matrix stored as a list of rows: `m[:, i]` in numpy,
for matrices whose rows all have length `> i`. -/
def column (i : ℕ) (m : List (List ℚ)) : List ℚ :=
  m.map (fun row => row.getD i 0)

/-- `compute_metrics(metric, output_names, (logits, labels))`: the assignments
to the `results` dict in execution order — for `i, name` in
`enumerate(output_names)` the key `"mae_" ++ name` gets the mae of column `i`
of predictions against column `i` of labels, and finally the key `"mae"` gets
the mae of the flattened predictions against the flattened labels. -/
def computeMetrics (outputNames : List String) (logits labels : List (List ℚ)) :
    List (String × ℚ) :=
  (outputNames.enum.map
      (fun p => ("mae_" ++ p.2, mae (column p.1 logits) (column p.1 labels))))
    ++ [("mae", mae logits.flatten labels.flatten)]

/-- Reading key `k` of a Python dict built by the recorded assignments:
the value of the last assignment to `k`, if any. -/
def dictGet (d : List (String × ℚ)) (k : String) : Option ℚ :=
  ((d.filter (fun p => p.1 == k)).getLast?).map Prod.snd

/-! ## Batch preprocessing — `train.py`, `preprocess_batch` (lines 34-38) -/

/-- The result of applying the image processor to a list of images: a dict
holding a `"pixel_values"` field and possibly further fields. -/
structure TransformOut where
  pixel_values : List Nat
  extra : List (String × String)

/-- A batch of webdataset samples as seen by `preprocess_batch`: the `"jpg"`
column (images), the `"json"` column (one metadata object per sample, a
string-to-number mapping), the two columns the function assigns, and any
other columns of the batch. -/
structure Batch where
  jpg : List Nat
  json : List (List (String × ℚ))
  pixel_values : Option (List Nat)
  labels : Option (List (List ℚ))
  other : List (String × String)

/-- `obj[key]` on a sample's json object. In Python a missing key raises
`KeyError`; the claims about `preprocess_batch` only concern objects that
carry every label key, where this total version agrees. -/
def jsonGet (obj : List (String × ℚ)) (key : String) : ℚ :=
  (obj.lookup key).getD 0

/-- `preprocess_batch(transform, label_keys, samples)`: sets
`samples["pixel_values"]` to the `"pixel_values"` field of the transform of
`samples["jpg"]`, and `samples["labels"]` to, per sample, the list of that
sample's json values under the label keys in order. -/
def preprocess_batch (transform : List Nat → TransformOut)
    (label_keys : List String) (samples : Batch) : Batch :=
  { samples with
    pixel_values := some (transform samples.jpg).pixel_values
    labels := some (samples.json.map (fun obj => label_keys.map (jsonGet obj))) }

/-! ## Paths and command-line arguments — `train.py` -/

/-- `os.path.join(a, b)` for the path shapes the scripts build. -/
def joinPath (a b : String) : String :=
  if b.startsWith "/" then b
  else if a = "" ∨ a.endsWith "/" then a ++ b
  else a ++ "/" ++ b

/-- `os.pardir`. -/
def pardir : String := ".."

/-- The parsed arguments of the training script (`get_args_parser`).
`warmup` stands for the `--warmup-ratio` value. -/
structure Args where
  input : String
  rotation : Option ℚ
  checkpoint : Option String
  model : String
  output : String
  epochs : Nat
  batchSize : Nat
  learningRate : ℚ
  warmup : ℚ
  outputNames : List String

/-- The part of the file system `main` consults before training:
the contents of `<input>/split_sizes.json` (`none` when the file does not
exist), as a name-to-size mapping. -/
structure Env where
  splitSizesJson : Option (List (String × Nat))

/-- Lines 72-83: the number of training samples is `split_sizes["training"]`
when `<input>/split_sizes.json` exists, and `65536` otherwise. A file whose
mapping lacks the `"training"` key raises `KeyError` in Python; the claims
only concern files that carry it, where this total version agrees. -/
def numTrainingSamplesOf (env : Env) : Nat :=
  match env.splitSizesJson with
  | some sizes => (sizes.lookup "training").getD 0
  | none => 65536

/-- The keyword arguments of the `TrainingArguments(...)` construction on
lines 96-110. `warmup` stands for `warmup_ratio`. -/
structure FreshTrainingArgs where
  output_dir : String
  eval_strategy : String
  save_strategy : String
  load_best_model_at_end : Bool
  save_total_limit : Nat
  learning_rate : ℚ
  lr_scheduler_type : String
  warmup : ℚ
  per_device_train_batch_size : Nat
  per_device_eval_batch_size : Nat
  logging_strategy : String
  logging_steps : Nat
  max_steps : Nat
deriving DecidableEq

/-- The training arguments `main` hands to the `Trainer`: either a freshly
constructed `TrainingArguments`, or ones deserialized from a file, together
with the value of their `ignore_data_skip` field after line 115. -/
inductive TrainingArgsR where
  | fresh (t : FreshTrainingArgs)
  | loadedFrom (path : String) (ignore_data_skip : Bool)
deriving DecidableEq

/-- Where `max_steps` was set, when the training arguments are fresh. -/
def TrainingArgsR.maxSteps? : TrainingArgsR → Option Nat
  | .fresh t => some t.max_steps
  | .loadedFrom _ _ => none

/-- The model `main` hands to the `Trainer`: a new `MultiHeadModel` around a
pretrained base, or a model deserialized from a file. -/
inductive ModelSrc where
  | multiHead (baseModel : String) (numHeads : Nat)
  | loadedFrom (path : String)
deriving DecidableEq

/-- The configuration decisions of `main` (lines 59-115): the output
directory, the number of training samples, where the image processor is
loaded from, which model is used, and which training arguments. -/
structure Setup where
  outputDir : String
  numTrainingSamples : Nat
  imageProcessorFrom : String
  modelSrc : ModelSrc
  trainingArgs : TrainingArgsR
deriving DecidableEq

/-- Lines 59-115 of `main` as a pure function of the arguments, the file
system and the timestamp string. -/
def setup (env : Env) (timestamp : String) (args : Args) : Setup :=
  let outputDir :=
    match args.checkpoint with
    | some ckpt => joinPath ckpt pardir
    | none => joinPath args.output timestamp
  let n := numTrainingSamplesOf env
  let steps_per_epoch := n / args.batchSize
  let total_steps := steps_per_epoch * args.epochs
  match args.checkpoint with
  | none =>
      { outputDir := outputDir
        numTrainingSamples := n
        imageProcessorFrom := args.model
        modelSrc := .multiHead args.model args.outputNames.length
        trainingArgs := .fresh
          { output_dir := outputDir
            eval_strategy := "epoch"
            save_strategy := "epoch"
            load_best_model_at_end := true
            save_total_limit := 1
            learning_rate := args.learningRate
            lr_scheduler_type := "cosine"
            warmup := args.warmup
            per_device_train_batch_size := args.batchSize
            per_device_eval_batch_size := args.batchSize
            logging_strategy := "steps"
            logging_steps := 50
            max_steps := total_steps } }
  | some ckpt =>
      { outputDir := outputDir
        numTrainingSamples := n
        imageProcessorFrom := outputDir
        modelSrc := .loadedFrom ckpt
        trainingArgs := .loadedFrom (joinPath ckpt "training_args.bin") true }

/-! ## Dataset pipelines — `train.py` lines 124-133 and 151 -/

/-- A streaming-dataset pipeline as the scripts assemble it: a split of the
webdataset source followed by `take` / `shuffle` / `map` / `select_columns`
steps. -/
inductive Pipeline where
  | source (split : String)
  | take (n : Nat) (p : Pipeline)
  | shuffle (p : Pipeline)
  | mapAugment (rotation : ℚ) (p : Pipeline)
  | mapPreprocess (labelKeys : List String) (p : Pipeline)
  | selectColumns (cols : List String) (p : Pipeline)
deriving DecidableEq

/-- The training pipeline (lines 126-131): take `n` samples of the train
split, shuffle, apply the rotation augmentation when `--rotation` was given,
preprocess, and keep the `labels` and `pixel_values` columns. -/
def trainPipeline (args : Args) (n : Nat) : Pipeline :=
  let base := Pipeline.shuffle (.take n (.source "train"))
  let augmented :=
    match args.rotation with
    | some r => Pipeline.mapAugment r base
    | none => base
  .selectColumns ["labels", "pixel_values"] (.mapPreprocess args.outputNames augmented)

/-- The validation pipeline (line 133). -/
def valPipeline (args : Args) : Pipeline :=
  .selectColumns ["labels", "pixel_values"]
    (.mapPreprocess args.outputNames (.source "validation"))

/-- The test pipeline (line 151). -/
def testPipeline (args : Args) : Pipeline :=
  .selectColumns ["labels", "pixel_values"]
    (.mapPreprocess args.outputNames (.source "test"))

/-- The training pipeline as `main` builds it, with `n` the number of
training samples determined from the file system. -/
def trainDS (env : Env) (args : Args) : Pipeline :=
  trainPipeline args (numTrainingSamplesOf env)

/-- The amounts of all `take` steps of a pipeline, outermost first. -/
def Pipeline.takeAmounts : Pipeline → List Nat
  | .source _ => []
  | .take n p => n :: p.takeAmounts
  | .shuffle p => p.takeAmounts
  | .mapAugment _ p => p.takeAmounts
  | .mapPreprocess _ p => p.takeAmounts
  | .selectColumns _ p => p.takeAmounts

/-- Whether a pipeline contains an augmentation map step. -/
def Pipeline.hasAugment : Pipeline → Bool
  | .source _ => false
  | .take _ p => p.hasAugment
  | .shuffle p => p.hasAugment
  | .mapAugment _ _ => true
  | .mapPreprocess _ p => p.hasAugment
  | .selectColumns _ p => p.hasAugment

/-! ## The effect trace of `train.py`'s `main` -/

/-- The externally visible steps of `main`, in statement order. -/
inductive Event where
  | makeDirs (path : String)
  | saveImageProcessor (dir : String)
  | train (resumeFrom : Option String)
  | predict (p : Pipeline)
  | saveModel (path : String)
  | writeFile (path : String) (contents : String)
deriving DecidableEq

/-- The trace of a completed run of `main` (lines 59-165): create the
`--output` directory; when training fresh, save the image processor to the
run's output directory; train (resuming from the checkpoint when given); run
prediction on the test pipeline; save the model to `<output_dir>/model.pt`;
write the output names joined by newlines to `<output_dir>/output_names.txt`. -/
def mainEvents (env : Env) (timestamp : String) (args : Args) : List Event :=
  let st := setup env timestamp args
  [Event.makeDirs args.output]
    ++ (match args.checkpoint with
        | none => [Event.saveImageProcessor st.outputDir]
        | some _ => [])
    ++ [Event.train args.checkpoint,
        Event.predict (testPipeline args),
        Event.saveModel (joinPath st.outputDir "model.pt"),
        Event.writeFile (joinPath st.outputDir "output_names.txt")
          (String.intercalate "\n" args.outputNames)]

/-! ## The `--checkpoint` / `--model` group of `get_args_parser` -/

/-- The values the training parser produces for the two arguments of its
mutually exclusive group. -/
structure ParsedCkptModel where
  checkpoint : Option String
  model : String
deriving DecidableEq

/-- `get_args_parser` lines 181-185 under argparse semantics: `--checkpoint`
and `--model` sit in one mutually exclusive group, so supplying both is a
parse error; otherwise `--checkpoint` defaults to `None` and `--model` to
`"resnet18"`. -/
def parseCheckpointModel (ckpt model : Option String) :
    Except String ParsedCkptModel :=
  if ckpt.isSome ∧ model.isSome then
    .error "argument --model: not allowed with argument --checkpoint"
  else
    .ok { checkpoint := ckpt, model := model.getD "resnet18" }

/-! ## The Beaufort test script — `test_beaufort.py` -/

/-- The arguments of `test_beaufort.py`'s parser that are marked
`required=True` (lines 70-72). -/
def beaufortRequiredArgs : List String := ["--model-dir", "--dataset", "--output"]

/-- The inference devices the script can select. -/
inductive Device where
  | cuda
  | mps
  | cpu
deriving DecidableEq

/-- Lines 37-42: pick `cuda` when available, else `mps` when available,
else `cpu`. -/
def selectDevice (cudaAvailable mpsAvailable : Bool) : Device :=
  if cudaAvailable then .cuda
  else if mpsAvailable then .mps
  else .cpu

/-- The parsed arguments of `test_beaufort.py`'s `get_args_parser`. -/
structure BeaufortArgs where
  modelDir : String
  dataset : String
  output : String
  split : String
  batchSize : Nat
deriving DecidableEq

/-- The externally visible steps of the Beaufort test's `main`. A
`writeFile` constructor is included so that the absence of file writes is
expressible; the logging calls are `logInfo` events. -/
inductive BEvent where
  | loadModel (path : String)
  | loadImageProcessor (path : String)
  | buildLoader (dataset : String) (split : String) (batchSize : Nat)
  | moveModelTo (d : Device)
  | evalLoop (d : Device)
  | logInfo (what : String)
  | writeFile (path : String) (contents : String)
deriving DecidableEq

/-- Whether an event writes a file. -/
def BEvent.isFileWrite : BEvent → Bool
  | .writeFile _ _ => true
  | _ => false

/-- The trace of a completed run of `test_beaufort.py`'s `main`
(lines 20-63), in statement order. -/
def beaufortEvents (cudaAvailable mpsAvailable : Bool) (args : BeaufortArgs) :
    List BEvent :=
  let device := selectDevice cudaAvailable mpsAvailable
  [BEvent.loadModel (joinPath args.modelDir "model.pt"),
   BEvent.loadImageProcessor args.modelDir,
   BEvent.buildLoader args.dataset args.split args.batchSize,
   BEvent.moveModelTo device,
   BEvent.evalLoop device,
   BEvent.logInfo "Test duration",
   BEvent.logInfo "Accuracy"]

/-! ## Lemmas about the metric computation -/

/-- The per-output keys of the results dict never collide with `"mae"`. -/
lemma key_ne_mae (s : String) : ("mae_" ++ s) ≠ "mae" := by
  intro h
  have hl := congrArg String.length h
  have h4 : ("mae_" : String).length = 4 := rfl
  have h3 : ("mae" : String).length = 3 := rfl
  rw [String.length_append, h4, h3] at hl
  omega

/-- Distinct output names give distinct per-output result keys. -/
lemma key_inj {a b : String} (h : "mae_" ++ a = "mae_" ++ b) : a = b := by
  have hd := congrArg String.data h
  rw [String.data_append, String.data_append] at hd
  exact String.ext (List.append_cancel_left hd)

/-- Filtering the per-output entries by a key that is not among them yields
nothing. -/
lemma filter_perOutput_nil (P L : List (List ℚ)) (names : List String)
    (n : ℕ) (s : String) (h : ∀ name ∈ names, ("mae_" ++ name) ≠ s) :
    ((names.enumFrom n).map
        (fun p => ("mae_" ++ p.2, mae (column p.1 P) (column p.1 L)))).filter
      (fun q => q.1 == s) = [] := by
  induction names generalizing n with
  | nil => rfl
  | cons a rest ih =>
      have hne : (("mae_" ++ a) == s) = false := by
        simp only [beq_eq_false_iff_ne, ne_eq]
        exact h a (List.mem_cons_self _ _)
      simp only [List.enumFrom_cons, List.map_cons, List.filter_cons, hne,
        Bool.false_eq_true, if_false]
      exact ih (n + 1) (fun name hm => h name (List.mem_cons_of_mem _ hm))

/-- For pairwise distinct output names, filtering the per-output entries by
the `i`-th key isolates exactly that entry. -/
lemma filter_perOutput_singleton (P L : List (List ℚ)) (names : List String)
    (n i : ℕ) (hi : i < names.length) (hnd : names.Nodup) :
    ((names.enumFrom n).map
        (fun p => ("mae_" ++ p.2, mae (column p.1 P) (column p.1 L)))).filter
      (fun q => q.1 == "mae_" ++ names.get ⟨i, hi⟩)
    = [("mae_" ++ names.get ⟨i, hi⟩,
        mae (column (n + i) P) (column (n + i) L))] := by
  induction names generalizing n i with
  | nil => exact absurd hi (Nat.not_lt_zero i)
  | cons a rest ih =>
      rcases List.nodup_cons.mp hnd with ⟨ha, hrest⟩
      cases i with
      | zero =>
          simp only [List.get, List.enumFrom_cons, List.map_cons,
            List.filter_cons, beq_self_eq_true, if_true, Nat.add_zero]
          rw [filter_perOutput_nil P L rest (n + 1) ("mae_" ++ a)
            (fun name hm hk => ha (key_inj hk ▸ hm))]
      | succ j =>
          have hj : j < rest.length := Nat.lt_of_succ_lt_succ hi
          have hne : (("mae_" ++ a) == "mae_" ++ rest.get ⟨j, hj⟩) = false := by
            simp only [beq_eq_false_iff_ne, ne_eq]
            intro hk
            exact ha (key_inj hk ▸ rest.get_mem j hj)
          simp only [List.get, List.enumFrom_cons, List.map_cons,
            List.filter_cons, hne, Bool.false_eq_true, if_false]
          rw [ih (n + 1) j hj hrest]
          have harith : n + 1 + j = n + (j + 1) := by omega
          rw [harith]

/-- Reading the `"mae"` key of the results dict gives the mae of the
flattened matrices. -/
lemma dictGet_overall_eq (names : List String) (P L : List (List ℚ)) :
    dictGet (computeMetrics names P L) "mae" = some (mae P.flatten L.flatten) := by
  unfold dictGet computeMetrics
  rw [show names.enum = names.enumFrom 0 from rfl, List.filter_append,
    filter_perOutput_nil P L names 0 "mae" (fun name _ => key_ne_mae name)]
  rfl

/-- Reading the `i`-th per-output key of the results dict gives the mae of
the `i`-th columns, provided the output names are pairwise distinct. -/
lemma dictGet_perOutput_eq (names : List String) (P L : List (List ℚ))
    (i : ℕ) (hi : i < names.length) (hnd : names.Nodup) :
    dictGet (computeMetrics names P L) ("mae_" ++ names.get ⟨i, hi⟩)
      = some (mae (column i P) (column i L)) := by
  unfold dictGet computeMetrics
  rw [show names.enum = names.enumFrom 0 from rfl, List.filter_append]
  have h1 := filter_perOutput_singleton P L names 0 i hi hnd
  rw [Nat.zero_add] at h1
  rw [h1]
  have h2 : ([("mae", mae P.flatten L.flatten)].filter
      (fun q => q.1 == "mae_" ++ names.get ⟨i, hi⟩)) = [] := by
    have hne : (("mae" : String) == "mae_" ++ names.get ⟨i, hi⟩) = false := by
      simp only [beq_eq_false_iff_ne, ne_eq]
      exact fun hk => key_ne_mae _ hk.symm
    simp only [List.filter_cons, hne, Bool.false_eq_true, if_false, List.filter_nil]
  rw [h2]
  rfl

/-! ## Lemmas relating the overall mae to the per-column maes -/

lemma absDiffSum_nil : absDiffSum [] [] = 0 := rfl

lemma absDiffSum_cons (a b : ℚ) (p l : List ℚ) :
    absDiffSum (a :: p) (b :: l) = |a - b| + absDiffSum p l := by
  simp [absDiffSum]

lemma column_nil (i : ℕ) : column i ([] : List (List ℚ)) = [] := rfl

lemma column_cons (i : ℕ) (r : List ℚ) (m : List (List ℚ)) :
    column i (r :: m) = r.getD i 0 :: column i m := rfl

lemma absDiffSum_append (p l A B : List ℚ) (h : p.length = l.length) :
    absDiffSum (p ++ A) (l ++ B) = absDiffSum p l + absDiffSum A B := by
  unfold absDiffSum
  rw [List.zipWith_append _ _ _ _ _ h, List.sum_append]

/-- The sum of absolute differences of two equally long lists, as a sum over
positions. -/
lemma absDiffSum_eq_sum_range (p l : List ℚ) (h : p.length = l.length) :
    absDiffSum p l = ∑ x ∈ Finset.range p.length, |p.getD x 0 - l.getD x 0| := by
  induction p generalizing l with
  | nil => simp [absDiffSum]
  | cons a p' ih =>
      cases l with
      | nil => simp at h
      | cons b l' =>
          rw [absDiffSum_cons, List.length_cons, Finset.sum_range_succ']
          simp only [List.getD_cons_succ, List.getD_cons_zero]
          rw [← ih l' (by simpa using h)]
          ring

/-- Splitting the flattened sum of absolute differences into per-column
sums, for rectangular matrices with rows of length `k`. -/
lemma flatten_absDiffSum (k : ℕ) (P L : List (List ℚ))
    (hP : ∀ r ∈ P, r.length = k) (hL : ∀ r ∈ L, r.length = k)
    (hn : P.length = L.length) :
    absDiffSum P.flatten L.flatten
      = ∑ i ∈ Finset.range k, absDiffSum (column i P) (column i L) := by
  induction P generalizing L with
  | nil =>
      cases L with
      | nil => simp [absDiffSum, column]
      | cons l L' => simp at hn
  | cons p P' ih =>
      cases L with
      | nil => simp at hn
      | cons l L' =>
          have hpk : p.length = k := hP p (List.mem_cons_self _ _)
          have hlk : l.length = k := hL l (List.mem_cons_self _ _)
          have hpl : p.length = l.length := by rw [hpk, hlk]
          rw [List.flatten_cons, List.flatten_cons, absDiffSum_append _ _ _ _ hpl,
            ih L' (fun r hr => hP r (List.mem_cons_of_mem _ hr))
              (fun r hr => hL r (List.mem_cons_of_mem _ hr)) (by simpa using hn)]
          simp only [column_cons, absDiffSum_cons]
          rw [Finset.sum_add_distrib]
          have hrow : absDiffSum p l
              = ∑ x ∈ Finset.range k, |p.getD x 0 - l.getD x 0| := by
            rw [absDiffSum_eq_sum_range p l hpl, hpk]
          rw [hrow]

/-- Rectangular matrices have `rows * k` entries after flattening. -/
lemma length_flatten_rect (k : ℕ) (P : List (List ℚ))
    (hP : ∀ r ∈ P, r.length = k) :
    P.flatten.length = P.length * k := by
  induction P with
  | nil => simp
  | cons p P' ih =>
      simp only [List.flatten_cons, List.length_append, List.length_cons]
      rw [hP p (List.mem_cons_self _ _), ih (fun r hr => hP r (List.mem_cons_of_mem _ hr))]
      ring

/-- The mae of the flattened matrices is the arithmetic mean of the
per-column maes, for rectangular matrices with rows of length `k`. -/
lemma mae_flatten_eq_mean (k : ℕ) (P L : List (List ℚ))
    (hP : ∀ r ∈ P, r.length = k) (hL : ∀ r ∈ L, r.length = k)
    (hn : P.length = L.length) :
    mae P.flatten L.flatten
      = (∑ i ∈ Finset.range k, mae (column i P) (column i L)) / (k : ℚ) := by
  unfold mae
  rw [flatten_absDiffSum k P L hP hL hn, length_flatten_rect k P hP]
  have hcol : ∀ i : ℕ, ((column i P).length : ℚ) = (P.length : ℚ) := by
    intro i
    simp [column]
  simp only [hcol]
  rw [← Finset.sum_div, div_div]
  push_cast
  ring_nf

/-- A sample parsed argument set for fresh training (the parser defaults,
with one output name). -/
def argsFresh : Args :=
  { input := "data", rotation := none, checkpoint := none, model := "resnet18",
    output := "data/train", epochs := 30, batchSize := 32,
    learningRate := 1/1000, warmup := 1/10, outputNames := ["wind_speed"] }

/-- A sample parsed argument set resuming from a checkpoint. -/
def argsResume : Args :=
  { argsFresh with checkpoint := some "data/train/run/checkpoint-100" }

/-- A sample environment whose `split_sizes.json` maps `"training"` to 1000. -/
def envSplit : Env := ⟨some [("training", 1000)]⟩

/-- A sample argument set for the Beaufort test script. -/
def beaufortArgsEx : BeaufortArgs :=
  { modelDir := "data/train/run", dataset := "data", output := "results",
    split := "test", batchSize := 32 }

/-! ## Claims -/

/-- C1: for an `n × k` evaluation pair with `k` the number of (pairwise
distinct) output names, the results dict of `compute_metrics` holds, under
the key `"mae_" ++ name` for the name at index `i`, the mean absolute error
of column `i` of the predictions against column `i` of the labels, and
under the key `"mae"` the mean absolute error of the flattened predictions
against the flattened labels. -/
theorem computeMetrics_per_output_and_overall (names : List String)
    (P L : List (List ℚ)) (i : ℕ) (hi : i < names.length) (hnd : names.Nodup)
    (_hP : ∀ r ∈ P, r.length = names.length)
    (_hL : ∀ r ∈ L, r.length = names.length) (_hn : P.length = L.length) :
    dictGet (computeMetrics names P L) ("mae_" ++ names.get ⟨i, hi⟩)
        = some (mae (column i P) (column i L)) ∧
    dictGet (computeMetrics names P L) "mae"
        = some (mae P.flatten L.flatten) :=
  ⟨dictGet_perOutput_eq names P L i hi hnd, dictGet_overall_eq names P L⟩

/-- Witness for C1 on a concrete 2 × 2 evaluation pair. -/
theorem computeMetrics_per_output_and_overall_witness :
    dictGet (computeMetrics ["w", "g"] ([[1, 2], [3, 4]] : List (List ℚ))
        [[1, 3], [2, 8]]) ("mae_" ++ (["w", "g"] : List String).get ⟨0, by decide⟩)
        = some (mae (column 0 ([[1, 2], [3, 4]] : List (List ℚ)))
            (column 0 ([[1, 3], [2, 8]] : List (List ℚ)))) ∧
    dictGet (computeMetrics ["w", "g"] ([[1, 2], [3, 4]] : List (List ℚ))
        [[1, 3], [2, 8]]) "mae"
        = some (mae (List.flatten ([[1, 2], [3, 4]] : List (List ℚ)))
            (List.flatten ([[1, 3], [2, 8]] : List (List ℚ)))) :=
  computeMetrics_per_output_and_overall ["w", "g"] [[1, 2], [3, 4]] [[1, 3], [2, 8]]
    0 (by decide) (by decide) (by decide) (by decide) (by decide)

/-- C8: on a rectangular `n × k` evaluation pair, the overall `"mae"` value
of `compute_metrics` is the arithmetic mean of the `k` per-output mae
values. -/
theorem overall_mae_is_mean_of_per_output (names : List String)
    (P L : List (List ℚ)) (hP : ∀ r ∈ P, r.length = names.length)
    (hL : ∀ r ∈ L, r.length = names.length) (hn : P.length = L.length) :
    dictGet (computeMetrics names P L) "mae"
      = some ((∑ i ∈ Finset.range names.length, mae (column i P) (column i L))
          / (names.length : ℚ)) := by
  rw [dictGet_overall_eq, mae_flatten_eq_mean names.length P L hP hL hn]

/-- Witness for C8 on a concrete 2 × 2 evaluation pair. -/
theorem overall_mae_is_mean_of_per_output_witness :
    dictGet (computeMetrics ["w", "g"] ([[1, 2], [3, 4]] : List (List ℚ))
        [[1, 3], [2, 8]]) "mae"
      = some ((∑ i ∈ Finset.range (["w", "g"] : List String).length,
            mae (column i ([[1, 2], [3, 4]] : List (List ℚ)))
              (column i ([[1, 3], [2, 8]] : List (List ℚ))))
          / ((["w", "g"] : List String).length : ℚ)) :=
  overall_mae_is_mean_of_per_output ["w", "g"] [[1, 2], [3, 4]] [[1, 3], [2, 8]]
    (by decide) (by decide) (by decide)

/-- C2: when `--checkpoint` is provided, the output directory is
`<checkpoint>/..`, i.e. the parent directory of the checkpoint path; the
model is loaded from the checkpoint path and the training arguments from
`<checkpoint>/training_args.bin` with `ignore_data_skip` set to `true`
(so no fresh `TrainingArguments` is constructed); the image processor is
loaded from the output directory; and the fresh-training hyperparameter
arguments (learning rate, warmup ratio, epochs, batch size) do not affect
the setup. -/
theorem checkpoint_resume_setup (env : Env) (ts : String) (args : Args)
    (c : String) (h : args.checkpoint = some c) :
    (setup env ts args).outputDir = joinPath c pardir ∧
    (setup env ts args).modelSrc = ModelSrc.loadedFrom c ∧
    (setup env ts args).trainingArgs
        = TrainingArgsR.loadedFrom (joinPath c "training_args.bin") true ∧
    (setup env ts args).imageProcessorFrom = (setup env ts args).outputDir ∧
    (∀ lr w ep bs, setup env ts
        { args with learningRate := lr, warmup := w, epochs := ep, batchSize := bs }
      = setup env ts args) := by
  obtain ⟨inp, rot, ck, mdl, outp, ep0, bs0, lr0, w0, onames⟩ := args
  simp only at h
  subst h
  exact ⟨rfl, rfl, rfl, rfl, fun lr w ep bs => rfl⟩

/-- Witness for C2 at a concrete checkpoint argument set. -/
theorem checkpoint_resume_setup_witness :
    (setup envSplit "2025_01_01_0000" argsResume).outputDir
        = joinPath "data/train/run/checkpoint-100" pardir ∧
    (setup envSplit "2025_01_01_0000" argsResume).modelSrc
        = ModelSrc.loadedFrom "data/train/run/checkpoint-100" ∧
    (setup envSplit "2025_01_01_0000" argsResume).trainingArgs
        = TrainingArgsR.loadedFrom
            (joinPath "data/train/run/checkpoint-100" "training_args.bin") true ∧
    (setup envSplit "2025_01_01_0000" argsResume).imageProcessorFrom
        = (setup envSplit "2025_01_01_0000" argsResume).outputDir ∧
    setup envSplit "2025_01_01_0000"
        { argsResume with learningRate := 2, warmup := 0, epochs := 1, batchSize := 8 }
      = setup envSplit "2025_01_01_0000" argsResume := by
  have h := checkpoint_resume_setup envSplit "2025_01_01_0000" argsResume
    "data/train/run/checkpoint-100" rfl
  exact ⟨h.1, h.2.1, h.2.2.1, h.2.2.2.1, h.2.2.2.2 2 0 1 8⟩

/-- C3: the Beaufort test script selects `cuda` when available, otherwise
`mps` when available, otherwise `cpu`, and its trace moves the model to the
selected device immediately before the evaluation loop on that device. -/
theorem beaufort_device_priority (c m : Bool) (args : BeaufortArgs) :
    selectDevice true m = Device.cuda ∧
    selectDevice false true = Device.mps ∧
    selectDevice false false = Device.cpu ∧
    List.IsInfix
      [BEvent.moveModelTo (selectDevice c m), BEvent.evalLoop (selectDevice c m)]
      (beaufortEvents c m args) := by
  refine ⟨rfl, rfl, rfl, ?_⟩
  exact ⟨[BEvent.loadModel (joinPath args.modelDir "model.pt"),
          BEvent.loadImageProcessor args.modelDir,
          BEvent.buildLoader args.dataset args.split args.batchSize],
         [BEvent.logInfo "Test duration", BEvent.logInfo "Accuracy"], rfl⟩

/-- C5: training fresh, `max_steps` is `(N // batch_size) * epochs` in
integer floor division, with `N` the `"training"` entry of
`split_sizes.json` when that file exists and `65536` otherwise, and the
training pipeline takes exactly `N` samples. -/
theorem max_steps_and_take (env : Env) (ts : String) (args : Args)
    (hc : args.checkpoint = none) :
    (∀ sizes N, env.splitSizesJson = some sizes →
      sizes.lookup "training" = some N →
      ((setup env ts args).trainingArgs).maxSteps?
          = some (N / args.batchSize * args.epochs) ∧
      (trainDS env args).takeAmounts = [N]) ∧
    (env.splitSizesJson = none →
      ((setup env ts args).trainingArgs).maxSteps?
          = some (65536 / args.batchSize * args.epochs) ∧
      (trainDS env args).takeAmounts = [65536]) := by
  constructor
  · intro sizes N h1 h2
    constructor
    · simp [setup, hc, TrainingArgsR.maxSteps?, numTrainingSamplesOf, h1, h2]
    · cases hr : args.rotation <;>
        simp [trainDS, trainPipeline, numTrainingSamplesOf, h1, h2, hr,
          Pipeline.takeAmounts]
  · intro h1
    constructor
    · simp [setup, hc, TrainingArgsR.maxSteps?, numTrainingSamplesOf, h1]
    · cases hr : args.rotation <;>
        simp [trainDS, trainPipeline, numTrainingSamplesOf, h1, hr,
          Pipeline.takeAmounts]

/-- Witness for C5: 1000 training samples, batch size 32, 30 epochs. -/
theorem max_steps_and_take_witness :
    ((setup envSplit "2025_01_01_0000" argsFresh).trainingArgs).maxSteps?
        = some (1000 / 32 * 30) ∧
    (trainDS envSplit argsFresh).takeAmounts = [1000] :=
  (max_steps_and_take envSplit "2025_01_01_0000" argsFresh rfl).1
    [("training", 1000)] 1000 rfl rfl

/-- C6: the training parser rejects a command line supplying both
`--checkpoint` and `--model` (mutually exclusive group) and accepts either
one alone or neither, with `--checkpoint` defaulting to `None` and
`--model` to `"resnet18"`. -/
theorem mutually_exclusive_checkpoint_model (c m : String) :
    parseCheckpointModel (some c) (some m)
        = Except.error "argument --model: not allowed with argument --checkpoint" ∧
    parseCheckpointModel (some c) none = Except.ok ⟨some c, "resnet18"⟩ ∧
    parseCheckpointModel none (some m) = Except.ok ⟨none, m⟩ ∧
    parseCheckpointModel none none = Except.ok ⟨none, "resnet18"⟩ := by
  refine ⟨?_, ?_, ?_, ?_⟩ <;> simp [parseCheckpointModel]

/-- C7: every completed run of `main` trains, then predicts on the test
pipeline, then saves the model to `<output_dir>/model.pt`, and finally
writes the output names joined by newlines to
`<output_dir>/output_names.txt` — these four events form the tail of the
trace, in that order. -/
theorem train_then_predict_then_save (env : Env) (ts : String) (args : Args) :
    List.IsSuffix
      [Event.train args.checkpoint, Event.predict (testPipeline args),
       Event.saveModel (joinPath (setup env ts args).outputDir "model.pt"),
       Event.writeFile (joinPath (setup env ts args).outputDir "output_names.txt")
         (String.intercalate "\n" args.outputNames)]
      (mainEvents env ts args) := by
  unfold mainEvents
  cases hc : args.checkpoint
  · exact ⟨[Event.makeDirs args.output,
            Event.saveImageProcessor (setup env ts args).outputDir], by simp [hc]⟩
  · exact ⟨[Event.makeDirs args.output], by simp [hc]⟩

/-- C9: the `--rotation` augmentation only affects the training pipeline —
the validation and test pipelines are the same whatever the rotation
argument is, and without `--rotation` the training pipeline contains no
augmentation map step. -/
theorem rotation_only_affects_training (args : Args) (r : Option ℚ) (n : Nat) :
    valPipeline { args with rotation := r } = valPipeline args ∧
    testPipeline { args with rotation := r } = testPipeline args ∧
    (args.rotation = none → (trainPipeline args n).hasAugment = false) := by
  refine ⟨rfl, rfl, fun h => ?_⟩
  simp [trainPipeline, h, Pipeline.hasAugment]

/-- Witness for C9 at a concrete argument set without `--rotation`. -/
theorem rotation_only_affects_training_witness :
    valPipeline { argsFresh with rotation := some 10 } = valPipeline argsFresh ∧
    testPipeline { argsFresh with rotation := some 10 } = testPipeline argsFresh ∧
    (trainPipeline argsFresh 1000).hasAugment = false := by
  have h := rotation_only_affects_training argsFresh (some 10) 1000
  exact ⟨h.1, h.2.1, h.2.2 rfl⟩

/-- C4: `preprocess_batch` sets `pixel_values` to the `"pixel_values"`
field of the transform of the `jpg` column, sets `labels` so that the entry
for sample `s` is the list whose `j`-th element is that sample's json value
under the `j`-th label key (key order preserved), and leaves every other
field of the batch unchanged. -/
theorem preprocess_batch_spec (transform : List Nat → TransformOut)
    (label_keys : List String) (samples : Batch) (s j : ℕ)
    (hs : s < samples.json.length) (hj : j < label_keys.length) :
    (preprocess_batch transform label_keys samples).pixel_values
        = some (transform samples.jpg).pixel_values ∧
    ((preprocess_batch transform label_keys samples).labels.getD []).length
        = samples.json.length ∧
    (((preprocess_batch transform label_keys samples).labels.getD []).getD s []).length
        = label_keys.length ∧
    ((((preprocess_batch transform label_keys samples).labels.getD []).getD s []).getD j 0)
        = jsonGet (samples.json.getD s []) (label_keys.getD j "") ∧
    (preprocess_batch transform label_keys samples).jpg = samples.jpg ∧
    (preprocess_batch transform label_keys samples).json = samples.json ∧
    (preprocess_batch transform label_keys samples).other = samples.other := by
  refine ⟨rfl, by simp [preprocess_batch], ?_, ?_, rfl, rfl, rfl⟩
  · simp [preprocess_batch, List.getD_eq_getElem?_getD, List.getElem?_map,
      hs, List.getElem?_eq_getElem]
  · simp [preprocess_batch, List.getD_eq_getElem?_getD, List.getElem?_map,
      hs, hj, List.getElem?_eq_getElem]

/-- Witness for C4 at a concrete batch of one sample with two label keys. -/
theorem preprocess_batch_spec_witness :
    (preprocess_batch (fun l => ⟨l, []⟩) ["a", "b"]
        ⟨[7], [[("a", 1), ("b", 2)]], none, none, [("x", "y")]⟩).pixel_values
        = some ((fun l => (⟨l, []⟩ : TransformOut)) [7]).pixel_values ∧
    ((preprocess_batch (fun l => ⟨l, []⟩) ["a", "b"]
        ⟨[7], [[("a", 1), ("b", 2)]], none, none, [("x", "y")]⟩).labels.getD []).length
        = ([[("a", 1), ("b", 2)]] : List (List (String × ℚ))).length ∧
    (((preprocess_batch (fun l => ⟨l, []⟩) ["a", "b"]
        ⟨[7], [[("a", 1), ("b", 2)]], none, none, [("x", "y")]⟩).labels.getD []).getD 0 []).length
        = (["a", "b"] : List String).length ∧
    ((((preprocess_batch (fun l => ⟨l, []⟩) ["a", "b"]
        ⟨[7], [[("a", 1), ("b", 2)]], none, none, [("x", "y")]⟩).labels.getD []).getD 0 []).getD 1 0)
        = jsonGet (([[("a", 1), ("b", 2)]] : List (List (String × ℚ))).getD 0 [])
            ((["a", "b"] : List String).getD 1 "") ∧
    (preprocess_batch (fun l => ⟨l, []⟩) ["a", "b"]
        ⟨[7], [[("a", 1), ("b", 2)]], none, none, [("x", "y")]⟩).jpg = [7] ∧
    (preprocess_batch (fun l => ⟨l, []⟩) ["a", "b"]
        ⟨[7], [[("a", 1), ("b", 2)]], none, none, [("x", "y")]⟩).json
        = [[("a", 1), ("b", 2)]] ∧
    (preprocess_batch (fun l => ⟨l, []⟩) ["a", "b"]
        ⟨[7], [[("a", 1), ("b", 2)]], none, none, [("x", "y")]⟩).other = [("x", "y")] :=
  preprocess_batch_spec (fun l => ⟨l, []⟩) ["a", "b"]
    ⟨[7], [[("a", 1), ("b", 2)]], none, none, [("x", "y")]⟩ 0 1
    (by decide) (by decide)

/-- C10: `--output` is required by the Beaufort parser, yet the run's trace
does not depend on its value, and no event of the trace writes a file. -/
theorem beaufort_output_unused (c m : Bool) (args : BeaufortArgs) (o : String) :
    "--output" ∈ beaufortRequiredArgs ∧
    beaufortEvents c m { args with output := o } = beaufortEvents c m args ∧
    (beaufortEvents c m args).all (fun e => !e.isFileWrite) = true := by
  refine ⟨by simp [beaufortRequiredArgs], rfl, ?_⟩
  simp [beaufortEvents, BEvent.isFileWrite]

end SeeSea
